import Mathlib

/-!
Shallow embedding of the slack-emoji-tracker core
(`src/slack_emoji_tracker/config.py`, `src/slack_emoji_tracker/models.py`,
`src/slack_emoji_tracker/service.py`, and the legacy variant
`src/services/emoji_tracker.py`), together with theorems settling the
frozen claims about the natural-language specification.

Modelling conventions:
* Database tables are Lean lists of records; SQLAlchemy's
  `query(...).filter(...).first()` becomes `List.find?`, in-place ORM
  mutation of the first matching row becomes `updateFirst`, and
  `session.add` appends to the list.
* `datetime.utcnow()` is modelled by an explicit logical-clock argument
  `now : Nat` supplied by the caller.
* Python `dict` access `d["k"]` raises `KeyError` when the key is absent;
  this is modelled with `Except String`.
* The service is modelled with `web_client = None` (the default of
  `EmojiService.__init__`), so the best-effort Slack enrichment branches
  in `create_or_update_user` and `extract_user_mentions` are inert,
  exactly as in the source when no web client is supplied.
-/

namespace SlackEmojiTracker

/-! ## Emoji policy — `slack_emoji_tracker/config.py` -/

/-- One entry of the configured emoji table (`emoji_config["emojis"][name]`).
Python stores a dict; the `score` key may be absent, hence `Option`. -/
structure EmojiEntry where
  score : Option Int
  deriving Repr, DecidableEq

/-- The `settings` table of the emoji configuration. -/
structure EmojiSettings where
  default_score : Int
  track_all_emojis : Bool
  case_sensitive : Bool
  deriving Repr, DecidableEq

/-- The loaded emoji configuration (`Config.emoji_config`). -/
structure EmojiConfig where
  emojis : List (String × EmojiEntry)
  settings : EmojiSettings
  deriving Repr, DecidableEq

/-- Python `dict.get` over the emoji table (keys are unique in a dict;
the first match is the match). -/
def lookupEmoji (name : String) (table : List (String × EmojiEntry)) : Option EmojiEntry :=
  (table.find? (fun p => p.1 == name)).map (fun p => p.2)

/-- Python `str.strip(":")`: remove all leading and trailing colon characters. -/
def stripColons (s : String) : String :=
  String.mk (((s.toList.dropWhile (· == ':')).reverse.dropWhile (· == ':')).reverse)

/-- Python `str.lower()` restricted to the ASCII range, which covers emoji
names (`Char.toLower` lowercases exactly the ASCII uppercase letters). -/
def lowerAscii (s : String) : String :=
  String.mk (s.toList.map Char.toLower)

/-- The normalization performed at the top of `Config.get_emoji_score`:
strip leading/trailing colons, and lowercase unless `case_sensitive`. -/
def normalizeName (cfg : EmojiConfig) (emoji_name : String) : String :=
  let stripped := stripColons emoji_name
  if cfg.settings.case_sensitive then stripped else lowerAscii stripped

/-- `Config.get_emoji_score` (`slack_emoji_tracker/config.py`, lines 62-76).
`emoji_config["score"]` raises `KeyError` when the entry exists but has no
`score` key; this surfaces as `Except.error`. -/
def get_emoji_score (cfg : EmojiConfig) (emoji_name : String) : Except String Int :=
  let name := normalizeName cfg emoji_name
  match lookupEmoji name cfg.emojis with
  | some entry =>
    match entry.score with
    | some sc => .ok sc
    | none => .error "KeyError: score"
  | none =>
    if cfg.settings.track_all_emojis then .ok cfg.settings.default_score
    else .ok 0

/-! ## Data model — `slack_emoji_tracker/models.py` -/

/-- Row of the `users` table. -/
structure User where
  id : Nat
  slack_id : String
  email : Option String
  display_name : Option String
  real_name : Option String
  is_bot : Bool
  created_at : Nat
  updated_at : Nat
  deriving Repr, DecidableEq

/-- Row of the `channels` table. -/
structure Channel where
  id : Nat
  slack_id : String
  name : Option String
  is_private : Bool
  is_archived : Bool
  created_at : Nat
  updated_at : Nat
  deriving Repr, DecidableEq

/-- Row of the `emoji_usage` table (the immutable usage-event log).
`models.py` declares no `message_text` column, so no such field exists here. -/
structure EmojiUsage where
  id : Nat
  user_id : Nat
  channel_id : Option Nat
  emoji_name : String
  emoji_score : Int
  usage_type : String
  message_ts : Option String
  target_user_id : Option Nat
  created_at : Nat
  deriving Repr, DecidableEq

/-- Row of the `emoji_stats` table (per-(user, emoji) running counters). -/
structure EmojiStats where
  user_id : Nat
  emoji_name : String
  given_count : Int
  given_score : Int
  received_count : Int
  received_score : Int
  first_used : Nat
  last_used : Nat
  deriving Repr, DecidableEq

/-- The relational state touched by `EmojiService`, with id sequences. -/
structure Db where
  users : List User
  channels : List Channel
  usages : List EmojiUsage
  stats : List EmojiStats
  next_user_id : Nat
  next_channel_id : Nat
  next_usage_id : Nat
  deriving Repr, DecidableEq

/-- The empty database. -/
def Db.empty : Db :=
  { users := [], channels := [], usages := [], stats := [],
    next_user_id := 0, next_channel_id := 0, next_usage_id := 0 }

/-- Apply `f` to the first element satisfying `p` (ORM mutation of the row
returned by `.first()`); all other rows are untouched. -/
def updateFirst (p : α → Bool) (f : α → α) : List α → List α
  | [] => []
  | x :: xs => if p x then f x :: xs else x :: updateFirst p f xs

/-! ## Service write path — `slack_emoji_tracker/service.py` -/

/-- The in-place mutation of an existing user row in
`create_or_update_user` (lines 61-71): supplied (`some`) optional fields
overwrite, omitted (`none`) ones are left alone, `is_bot` is assigned
unconditionally, and `updated_at` is refreshed. -/
def updatedUser (user : User) (now : Nat)
    (email display_name real_name : Option String) (is_bot : Bool) : User :=
  { user with
    email := match email with | some e => some e | none => user.email
    display_name := match display_name with | some d => some d | none => user.display_name
    real_name := match real_name with | some r => some r | none => user.real_name
    is_bot := is_bot
    updated_at := now }

/-- `EmojiService.create_or_update_user` (lines 26-85), with
`web_client = None` so the Slack-enrichment block is skipped. -/
def create_or_update_user (db : Db) (now : Nat) (slack_id : String)
    (email display_name real_name : Option String) (is_bot : Bool) : User × Db :=
  match db.users.find? (fun u => u.slack_id == slack_id) with
  | some user =>
    let user' := updatedUser user now email display_name real_name is_bot
    (user', { db with users := updateFirst (fun u => u.slack_id == slack_id) (fun _ => user') db.users })
  | none =>
    let user : User :=
      { id := db.next_user_id, slack_id := slack_id, email := email,
        display_name := display_name, real_name := real_name, is_bot := is_bot,
        created_at := now, updated_at := now }
    (user, { db with users := db.users ++ [user], next_user_id := db.next_user_id + 1 })

/-- The in-place mutation of an existing channel row in
`create_or_update_channel` (lines 97-103): `name` is overwritten only when
supplied; `is_private` and `is_archived` are assigned unconditionally. -/
def updatedChannel (channel : Channel) (now : Nat)
    (name : Option String) (is_private is_archived : Bool) : Channel :=
  { channel with
    name := match name with | some n => some n | none => channel.name
    is_private := is_private
    is_archived := is_archived
    updated_at := now }

/-- `EmojiService.create_or_update_channel` (lines 87-115). -/
def create_or_update_channel (db : Db) (now : Nat) (slack_id : String)
    (name : Option String) (is_private is_archived : Bool) : Channel × Db :=
  match db.channels.find? (fun c => c.slack_id == slack_id) with
  | some channel =>
    let channel' := updatedChannel channel now name is_private is_archived
    (channel', { db with channels := updateFirst (fun c => c.slack_id == slack_id) (fun _ => channel') db.channels })
  | none =>
    let channel : Channel :=
      { id := db.next_channel_id, slack_id := slack_id, name := name,
        is_private := is_private, is_archived := is_archived,
        created_at := now, updated_at := now }
    (channel, { db with channels := db.channels ++ [channel], next_channel_id := db.next_channel_id + 1 })

/-- Predicate selecting the (user, emoji) aggregate row, as in the
`and_(EmojiStats.user_id == user_id, EmojiStats.emoji_name == emoji_name)`
filter of `_update_emoji_stats`. -/
def statMatches (user_id : Nat) (emoji_name : String) (s : EmojiStats) : Bool :=
  s.user_id == user_id && s.emoji_name == emoji_name

/-- The per-row mutation of `_update_emoji_stats` (lines 205-213): bump the
side selected by `stat_type`, then refresh `last_used`. -/
def applyStat (score : Int) (stat_type : String) (now : Nat) (s : EmojiStats) : EmojiStats :=
  let s' :=
    if stat_type == "given" then
      { s with given_count := s.given_count + 1, given_score := s.given_score + score }
    else if stat_type == "received" then
      { s with received_count := s.received_count + 1, received_score := s.received_score + score }
    else s
  { s' with last_used := now }

/-- The fresh aggregate row built when no (user, emoji) row exists
(lines 193-203): zero counters, `first_used = now`. -/
def newStatsRow (user_id : Nat) (emoji_name : String) (now : Nat) : EmojiStats :=
  { user_id := user_id, emoji_name := emoji_name,
    given_count := 0, given_score := 0, received_count := 0, received_score := 0,
    first_used := now, last_used := now }

/-- `EmojiService._update_emoji_stats` (lines 181-213): find-or-create the
(user, emoji) row, then apply the increment and refresh `last_used`. -/
def update_emoji_stats (db : Db) (now : Nat) (user_id : Nat) (emoji_name : String)
    (score : Int) (stat_type : String) : Db :=
  match db.stats.find? (statMatches user_id emoji_name) with
  | some _ =>
    { db with stats := updateFirst (statMatches user_id emoji_name) (applyStat score stat_type now) db.stats }
  | none =>
    { db with stats := db.stats ++ [applyStat score stat_type now (newStatsRow user_id emoji_name now)] }

/-- A sequence of `_update_emoji_stats` calls for one (user, emoji) pair and
one side (`stat_type`), each occurrence carrying its score and its
`datetime.utcnow()` value — the repeated-recording scenario of the
specification's additive-aggregation property. -/
def record_occurrences (db : Db) (user_id : Nat) (emoji_name stat_type : String) :
    List (Int × Nat) → Db
  | [] => db
  | (sc, t) :: rest =>
    record_occurrences (update_emoji_stats db t user_id emoji_name sc stat_type)
      user_id emoji_name stat_type rest

/-- `EmojiService.track_emoji_usage` (lines 117-179).  A zero policy score
returns `None` before any identity resolution or write (line 130-132); a
`KeyError` from the policy lookup propagates.  Otherwise the actor (and
optionally channel and target) are upserted — and then line 148-157
constructs `EmojiUsage(..., message_text=message_text, ...)`, a keyword for
which `models.py` declares no column, so the SQLAlchemy declarative
constructor raises `TypeError` on EVERY such call, before `db.add(usage)`
and before any `_update_emoji_stats` call.  The surrounding
`get_db_session` context manager rolls the session back on the exception,
so the flushed upserts are also undone; the raise is modelled as
`Except.error` with the pre-call state discarded. -/
def track_emoji_usage (cfg : EmojiConfig) (db : Db) (now : Nat)
    (user_slack_id emoji_name usage_type : String)
    (channel_slack_id message_ts _message_text target_user_slack_id : Option String) :
    Except String (Option EmojiUsage × Db) := do
  let emoji_score ← get_emoji_score cfg emoji_name
  if emoji_score == 0 then
    return (none, db)
  let (_user, db) := create_or_update_user db now user_slack_id none none none false
  let (_channel, db) : Option Channel × Db :=
    match channel_slack_id with
    | some cid =>
      if cid == "" then (none, db)  -- Python: `if channel_slack_id:` — "" is falsy
      else
        let (c, db') := create_or_update_channel db now cid none false false
        (some c, db')
    | none => (none, db)
  let (_target_user, _db) : Option User × Db :=
    match target_user_slack_id with
    | some tid =>
      if tid == "" then (none, db)  -- Python: `if target_user_slack_id:` — "" is falsy
      else
        let (t, db') := create_or_update_user db now tid none none none false
        (some t, db')
    | none => (none, db)
  -- `EmojiUsage(user_id=..., ..., message_text=message_text, ...)`:
  -- `message_text` is not a mapped attribute of `EmojiUsage`, so the
  -- declarative constructor raises here — lines 159-179 are unreachable.
  Except.error "TypeError: message_text is an invalid keyword argument for EmojiUsage"

/-! ## Service read path — `slack_emoji_tracker/service.py` -/

/-- Stable insertion of `x` into a list already sorted by non-increasing
`key`; equal keys keep `x` in front, preserving the underlying row order
(the behaviour of SQL `ORDER BY ... DESC` on the modelled row order). -/
def insertDescBy (key : α → Int) (x : α) : List α → List α
  | [] => [x]
  | y :: ys => if key y ≤ key x then x :: y :: ys else y :: insertDescBy key x ys

/-- Stable sort by non-increasing `key` (models `order_by(desc(...))`). -/
def sortDescBy (key : α → Int) : List α → List α
  | [] => []
  | x :: xs => insertDescBy key x (sortDescBy key xs)

/-- One item of the `history` array returned by `get_user_history`. -/
structure HistoryItem where
  emoji : String
  score : Int
  usage_type : String
  timestamp : Nat
  deriving Repr, DecidableEq

/-- The object returned by `get_user_history`: user projection, page of
history items, and the pagination metadata. -/
structure HistoryPage where
  slack_id : String
  display_name : Option String
  history : List HistoryItem
  total : Nat
  limit : Nat
  offset : Nat
  has_more : Bool
  deriving Repr, DecidableEq

/-- Projection of a usage row into a history item (lines 368-376). -/
def historyItem (e : EmojiUsage) : HistoryItem :=
  { emoji := e.emoji_name, score := e.emoji_score,
    usage_type := e.usage_type, timestamp := e.created_at }

/-- The user's usage events ordered by `created_at` descending
(`order_by(desc(EmojiUsage.created_at))`). -/
def userEvents (db : Db) (uid : Nat) : List EmojiUsage :=
  sortDescBy (fun e => (e.created_at : Int)) (db.usages.filter (fun e => e.user_id == uid))

/-- `EmojiService.get_user_history` (lines 340-383): `None` when the user is
unknown, else the descending-time page selected by `offset`/`limit`, with
`has_more = (offset + limit) < total`. -/
def get_user_history (db : Db) (slack_id : String) (limit offset : Nat) : Option HistoryPage :=
  match db.users.find? (fun u => u.slack_id == slack_id) with
  | none => none
  | some user =>
    let total := (db.usages.filter (fun e => e.user_id == user.id)).length
    some { slack_id := user.slack_id, display_name := user.display_name,
           history := (((userEvents db user.id).drop offset).take limit).map historyItem,
           total := total, limit := limit, offset := offset,
           has_more := decide (offset + limit < total) }

/-- One returned leaderboard entry (lines 322-338). -/
structure LeaderboardEntry where
  rank : Nat
  slack_id : String
  display_name : Option String
  real_name : Option String
  given_count : Int
  given_score : Int
  received_count : Int
  received_score : Int
  deriving Repr, DecidableEq

/-- `func.sum` over a group of aggregate rows. -/
def sumBy (f : EmojiStats → Int) (l : List EmojiStats) : Int :=
  (l.map f).sum

/-- The inner join of `users` with `emoji_stats` grouped by user
(`.join(EmojiStats, User.id == EmojiStats.user_id).group_by(User.id)`):
each user paired with their aggregate rows, users without any row dropped. -/
def userGroups (db : Db) : List (User × List EmojiStats) :=
  (db.users.map (fun u => (u, db.stats.filter (fun s => s.user_id == u.id)))).filter
    (fun p => !p.2.isEmpty)

/-- The valid `sort_by` values of `get_leaderboard` (lines 287-292). -/
def valid_sort_options : List String :=
  ["received_score", "received_count", "given_score", "given_count"]

/-- The summed column selected by the (already normalized) sort key
(lines 297-305; the final `else` arm is `given_count`). -/
def sortFieldOf (sort_by : String) : List EmojiStats → Int :=
  if sort_by == "received_score" then sumBy (fun s => s.received_score)
  else if sort_by == "received_count" then sumBy (fun s => s.received_count)
  else if sort_by == "given_score" then sumBy (fun s => s.given_score)
  else sumBy (fun s => s.given_count)

/-- Projection of a ranked group into a leaderboard entry (lines 322-338);
`rank = idx + 1` from `enumerate(results)`. -/
def mkEntry (rank : Nat) (p : User × List EmojiStats) : LeaderboardEntry :=
  { rank := rank, slack_id := p.1.slack_id, display_name := p.1.display_name,
    real_name := p.1.real_name,
    given_count := sumBy (fun s => s.given_count) p.2,
    given_score := sumBy (fun s => s.given_score) p.2,
    received_count := sumBy (fun s => s.received_count) p.2,
    received_score := sumBy (fun s => s.received_score) p.2 }

/-- `enumerate` with 1-based ranks over the sorted, truncated groups. -/
def rankFrom (i : Nat) : List (User × List EmojiStats) → List LeaderboardEntry
  | [] => []
  | g :: gs => mkEntry (i + 1) g :: rankFrom (i + 1) gs

/-- `EmojiService.get_leaderboard` (lines 283-338): unknown sort keys fall
back to `received_score`; groups are ordered by the chosen summed counter
descending, truncated to `limit`, and ranked 1-based. -/
def get_leaderboard (db : Db) (sort_by : String) (limit : Nat) : List LeaderboardEntry :=
  let sb := if valid_sort_options.contains sort_by then sort_by else "received_score"
  let key := sortFieldOf sb
  rankFrom 0 ((sortDescBy (fun p => key p.2) (userGroups db)).take limit)

/-! ## Text extraction — `slack_emoji_tracker/service.py` lines 385-432 -/

/-- Characters allowed inside an emoji token: the regex class
`[a-zA-Z0-9_+-]` (ASCII ranges). -/
def emojiNameChar (c : Char) : Bool :=
  c.isAlphanum || c == '_' || c == '+' || c == '-'

/-- Left-to-right non-overlapping scan of `re.findall(r":([a-zA-Z0-9_+-]+):", text)`.
At a colon, the greedy name run must be nonempty and be followed by a
closing colon; on success scanning resumes after the closing colon, on
failure at the next character.  `fuel` bounds recursion and is supplied as
the text length, which every call preserves as an upper bound. -/
def scanEmojisAux : Nat → List Char → List String
  | 0, _ => []
  | _, [] => []
  | fuel + 1, c :: rest =>
    if c == ':' then
      let name := rest.takeWhile emojiNameChar
      match rest.dropWhile emojiNameChar with
      | ':' :: tail =>
        if name.isEmpty then scanEmojisAux fuel rest
        else String.mk name :: scanEmojisAux fuel tail
      | _ => scanEmojisAux fuel rest
    else scanEmojisAux fuel rest

/-- `EmojiService.extract_emojis_from_text` (lines 385-389). -/
def extract_emojis_from_text (text : String) : List String :=
  scanEmojisAux text.toList.length text.toList

/-- Characters allowed in a mention ID: the regex class `[A-Z0-9]`. -/
def idChar (c : Char) : Bool :=
  c.isUpper || c.isDigit

/-- Left-to-right non-overlapping scan of
`re.findall(r"<@([A-Z0-9]+)(?:\|[^>]+)?>", text)`: `<@`, a nonempty ID run,
then either `>` directly or `|`, a nonempty label run of non-`>` characters,
and `>`.  The character classes make the regex backtracking-free, so this
deterministic scan is exact. -/
def scanMentionsAux : Nat → List Char → List String
  | 0, _ => []
  | _, [] => []
  | fuel + 1, c :: rest =>
    if c == '<' then
      match rest with
      | '@' :: rest2 =>
        let idcs := rest2.takeWhile idChar
        if idcs.isEmpty then scanMentionsAux fuel rest
        else
          match rest2.dropWhile idChar with
          | '>' :: tail => String.mk idcs :: scanMentionsAux fuel tail
          | '|' :: rest3 =>
            let label := rest3.takeWhile (fun ch => !(ch == '>'))
            if label.isEmpty then scanMentionsAux fuel rest
            else
              match rest3.dropWhile (fun ch => !(ch == '>')) with
              | '>' :: tail => String.mk idcs :: scanMentionsAux fuel tail
              | _ => scanMentionsAux fuel rest
          | _ => scanMentionsAux fuel rest
      | _ => scanMentionsAux fuel rest
    else scanMentionsAux fuel rest

/-- `list(dict.fromkeys(user_ids))`: de-duplicate preserving first-seen
order. -/
def dedupFirstSeen (seen : List String) : List String → List String
  | [] => []
  | x :: xs =>
    if seen.contains x then dedupFirstSeen seen xs
    else x :: dedupFirstSeen (x :: seen) xs

/-- `EmojiService.extract_user_mentions` (lines 391-432) with
`event_payload = None` and `web_client = None`: payload mentions contribute
nothing, display-format mentions are never resolved, so the result is the
canonical `<@ID>` / `<@ID|label>` scan de-duplicated in first-seen order. -/
def extract_user_mentions (text : String) : List String :=
  dedupFirstSeen [] (scanMentionsAux text.toList.length text.toList)

/-! ## Legacy variant — `src/services/emoji_tracker.py` -/

/-- Row of the legacy `emoji_stats` table (`src/models/database.py`):
per-user running totals, keyed by `user_slack_id`.  Counter columns carry
`default=0`. -/
structure LegacyStats where
  user_slack_id : String
  total_given_score : Int
  total_received_score : Int
  total_given_count : Int
  total_received_count : Int
  most_given_emoji : Option String
  most_received_emoji : Option String
  last_activity : Option Nat
  deriving Repr, DecidableEq

/-- A fresh legacy stats row (`EmojiStats(user_slack_id=slack_id)` with the
column defaults). -/
def newLegacyRow (slack_id : String) : LegacyStats :=
  { user_slack_id := slack_id, total_given_score := 0, total_received_score := 0,
    total_given_count := 0, total_received_count := 0,
    most_given_emoji := none, most_received_emoji := none, last_activity := none }

/-- The per-row mutation of `EmojiTrackerService._update_single_user_stats`
(lines 325-362). -/
def applyLegacy (given_score received_score given_count received_count : Int)
    (given_emoji received_emoji : Option String) (now : Nat) (s : LegacyStats) : LegacyStats :=
  { s with
    total_given_score := s.total_given_score + given_score
    total_received_score := s.total_received_score + received_score
    total_given_count := s.total_given_count + given_count
    total_received_count := s.total_received_count + received_count
    most_given_emoji := match given_emoji with | some e => some e | none => s.most_given_emoji
    most_received_emoji := match received_emoji with | some e => some e | none => s.most_received_emoji
    last_activity := some now }

/-- `EmojiTrackerService._update_single_user_stats` on the legacy stats
table: find-or-create the user's row, then add the supplied deltas. -/
def legacy_update_single_user_stats (table : List LegacyStats) (now : Nat) (slack_id : String)
    (given_score received_score given_count received_count : Int)
    (given_emoji received_emoji : Option String) : List LegacyStats :=
  match table.find? (fun s => s.user_slack_id == slack_id) with
  | some _ =>
    updateFirst (fun s => s.user_slack_id == slack_id)
      (applyLegacy given_score received_score given_count received_count given_emoji received_emoji now)
      table
  | none =>
    table ++ [applyLegacy given_score received_score given_count received_count
      given_emoji received_emoji now (newLegacyRow slack_id)]

/-- `EmojiTrackerService._update_user_stats` (lines 303-323): always update
the giver's given side; update the receiver's received side only when a
receiver is present and differs from the giver. -/
def legacy_update_user_stats (table : List LegacyStats) (now : Nat)
    (giver_slack_id : String) (receiver_slack_id : Option String)
    (score : Int) (emoji_name : String) : List LegacyStats :=
  let table := legacy_update_single_user_stats table now giver_slack_id
    score 0 1 0 (some emoji_name) none
  match receiver_slack_id with
  | some receiver =>
    -- Python `if receiver_slack_id and receiver_slack_id != giver_slack_id:`;
    -- the empty string is falsy.
    if receiver != "" && receiver != giver_slack_id then
      legacy_update_single_user_stats table now receiver 0 score 0 1 none (some emoji_name)
    else table
  | none => table

/-! ## Concrete sample data used by witnesses and counterexamples -/

/-- The default emoji configuration of `Config._load_emoji_config`
(`thumbsup` with score 1, `track_all_emojis = False`,
`case_sensitive = False`). -/
def defaultCfg : EmojiConfig :=
  { emojis := [("thumbsup", { score := some 1 })],
    settings := { default_score := 1, track_all_emojis := false, case_sensitive := false } }

/-- A configuration whose table holds `rocket` with score 2. -/
def rocketCfg : EmojiConfig :=
  { emojis := [("rocket", { score := some 2 })],
    settings := { default_score := 1, track_all_emojis := false, case_sensitive := false } }

/-- A configuration whose `star` entry exists but specifies no score. -/
def starCfg : EmojiConfig :=
  { emojis := [("star", { score := none })],
    settings := { default_score := 1, track_all_emojis := false, case_sensitive := false } }

/-- A sample user row. -/
def sampleUser : User :=
  { id := 0, slack_id := "U1", email := some "a@b.c", display_name := some "Ann",
    real_name := none, is_bot := true, created_at := 0, updated_at := 0 }

/-- A sample channel row (private and archived). -/
def sampleChannel : Channel :=
  { id := 0, slack_id := "C1", name := some "general", is_private := true,
    is_archived := true, created_at := 0, updated_at := 0 }

/-- A usage row for the sample user, parameterized by id/emoji/time. -/
def sampleUsage (i : Nat) (emoji : String) (t : Nat) : EmojiUsage :=
  { id := i, user_id := 0, channel_id := none, emoji_name := emoji, emoji_score := 1,
    usage_type := "message", message_ts := none, target_user_id := none, created_at := t }

/-- A database holding one user with five usage events at distinct times. -/
def historyDb : Db :=
  { users := [{ sampleUser with is_bot := false }],
    channels := [],
    usages := [sampleUsage 0 "a" 1, sampleUsage 1 "b" 3, sampleUsage 2 "c" 2,
               sampleUsage 3 "d" 5, sampleUsage 4 "e" 4],
    stats := [],
    next_user_id := 1, next_channel_id := 0, next_usage_id := 5 }

/-- A database with two users of which only the first has aggregate rows. -/
def leaderDb : Db :=
  { users := [{ sampleUser with is_bot := false },
              { id := 1, slack_id := "U2", email := none, display_name := none,
                real_name := none, is_bot := false, created_at := 0, updated_at := 0 }],
    channels := [], usages := [],
    stats := [{ user_id := 0, emoji_name := "a", given_count := 1, given_score := 1,
                received_count := 2, received_score := 5, first_used := 0, last_used := 0 }],
    next_user_id := 2, next_channel_id := 0, next_usage_id := 0 }

/-! ## Generic list lemmas -/

theorem find?_append_of_none {p : α → Bool} {l₁ l₂ : List α}
    (h : l₁.find? p = none) : (l₁ ++ l₂).find? p = l₂.find? p := by
  rw [List.find?_append, h, Option.none_or]

theorem updateFirst_append_of_none {p : α → Bool} {f : α → α} {l₁ l₂ : List α}
    (h : l₁.find? p = none) : updateFirst p f (l₁ ++ l₂) = l₁ ++ updateFirst p f l₂ := by
  induction l₁ with
  | nil => rfl
  | cons x xs ih =>
    have hx : ¬ p x := List.find?_eq_none.mp h x (List.mem_cons_self ..)
    have hxs : xs.find? p = none :=
      List.find?_eq_none.mpr (fun y hy => List.find?_eq_none.mp h y (List.mem_cons_of_mem _ hy))
    simp only [List.cons_append, updateFirst, List.append_eq]
    rw [if_neg hx, ih hxs]

theorem mem_updateFirst {p : α → Bool} {f : α → α} {l : List α} {y : α}
    (h : y ∈ updateFirst p f l) : y ∈ l ∨ ∃ x ∈ l, y = f x := by
  induction l with
  | nil => simp [updateFirst] at h
  | cons x xs ih =>
    simp only [updateFirst] at h
    by_cases hx : p x
    · simp only [hx, if_pos] at h
      rcases List.mem_cons.mp h with h' | h'
      · exact Or.inr ⟨x, List.mem_cons_self .., h'⟩
      · exact Or.inl (List.mem_cons_of_mem _ h')
    · simp only [hx, if_neg] at h
      rcases List.mem_cons.mp h with h' | h'
      · exact Or.inl (h' ▸ List.mem_cons_self ..)
      · rcases ih h' with h'' | ⟨z, hz, hy⟩
        · exact Or.inl (List.mem_cons_of_mem _ h'')
        · exact Or.inr ⟨z, List.mem_cons_of_mem _ hz, hy⟩

theorem mem_insertDescBy {key : α → Int} {x y : α} {l : List α} :
    y ∈ insertDescBy key x l ↔ y = x ∨ y ∈ l := by
  induction l with
  | nil => simp [insertDescBy]
  | cons z zs ih =>
    simp only [insertDescBy]
    by_cases h : key z ≤ key x
    · simp [h, List.mem_cons]
    · simp only [h, if_neg, not_false_eq_true, List.mem_cons, ih]
      tauto

theorem mem_sortDescBy {key : α → Int} {y : α} {l : List α} :
    y ∈ sortDescBy key l ↔ y ∈ l := by
  induction l with
  | nil => simp [sortDescBy]
  | cons x xs ih =>
    simp only [sortDescBy, mem_insertDescBy, ih, List.mem_cons]

theorem length_insertDescBy {key : α → Int} {x : α} {l : List α} :
    (insertDescBy key x l).length = l.length + 1 := by
  induction l with
  | nil => rfl
  | cons z zs ih =>
    simp only [insertDescBy]
    by_cases h : key z ≤ key x
    · simp [h]
    · simp [h, ih]

theorem length_sortDescBy {key : α → Int} {l : List α} :
    (sortDescBy key l).length = l.length := by
  induction l with
  | nil => rfl
  | cons x xs ih => simp [sortDescBy, length_insertDescBy, ih]

theorem pairwise_insertDescBy {key : α → Int} {x : α} {l : List α}
    (h : List.Pairwise (fun a b => key b ≤ key a) l) :
    List.Pairwise (fun a b => key b ≤ key a) (insertDescBy key x l) := by
  induction l with
  | nil => simp [insertDescBy]
  | cons z zs ih =>
    simp only [insertDescBy]
    rcases List.pairwise_cons.mp h with ⟨hz, hzs⟩
    by_cases hc : key z ≤ key x
    · rw [if_pos hc]
      refine List.pairwise_cons.mpr ⟨?_, h⟩
      intro b hb
      rcases List.mem_cons.mp hb with rfl | hb'
      · exact hc
      · exact le_trans (hz b hb') hc
    · rw [if_neg hc]
      refine List.pairwise_cons.mpr ⟨?_, ih hzs⟩
      intro b hb
      rcases mem_insertDescBy.mp hb with rfl | hb'
      · exact le_of_lt (lt_of_not_ge hc)
      · exact hz b hb'

theorem pairwise_sortDescBy {key : α → Int} {l : List α} :
    List.Pairwise (fun a b => key b ≤ key a) (sortDescBy key l) := by
  induction l with
  | nil => simp [sortDescBy]
  | cons x xs ih => exact pairwise_insertDescBy ih

theorem find?_updateFirst_of_pres {p : α → Bool} {f : α → α} {l : List α} {x : α}
    (h : l.find? p = some x) (hf : p (f x) = true) :
    (updateFirst p f l).find? p = some (f x) := by
  induction l with
  | nil => simp [List.find?] at h
  | cons y ys ih =>
    by_cases hy : p y
    · rw [List.find?_cons_of_pos _ hy] at h
      cases h
      simp only [updateFirst, hy, if_pos]
      exact List.find?_cons_of_pos _ hf
    · rw [List.find?_cons_of_neg _ hy] at h
      simp only [updateFirst, hy, if_neg, Bool.false_eq_true, not_false_eq_true]
      rw [List.find?_cons_of_neg _ hy]
      exact ih h

theorem fmem_updateFirst_of_find? {p : α → Bool} {f : α → α} {l : List α} {x : α}
    (h : l.find? p = some x) : f x ∈ updateFirst p f l := by
  induction l with
  | nil => simp [List.find?] at h
  | cons y ys ih =>
    by_cases hy : p y
    · rw [List.find?_cons_of_pos _ hy] at h
      cases h
      simp [updateFirst, hy]
    · rw [List.find?_cons_of_neg _ hy] at h
      simp only [updateFirst, hy, if_neg, Bool.false_eq_true, not_false_eq_true]
      exact List.mem_cons_of_mem _ (ih h)

theorem mem_or_fmem_updateFirst {p : α → Bool} {f : α → α} {l : List α} {r : α}
    (h : r ∈ l) : r ∈ updateFirst p f l ∨ f r ∈ updateFirst p f l := by
  induction l with
  | nil => simp at h
  | cons y ys ih =>
    by_cases hy : p y
    · simp only [updateFirst, hy, if_pos]
      rcases List.mem_cons.mp h with rfl | h'
      · exact Or.inr (List.mem_cons_self ..)
      · exact Or.inl (List.mem_cons_of_mem _ h')
    · simp only [updateFirst, hy, if_neg, Bool.false_eq_true, not_false_eq_true]
      rcases List.mem_cons.mp h with rfl | h'
      · exact Or.inl (List.mem_cons_self ..)
      · rcases ih h' with h'' | h''
        · exact Or.inl (List.mem_cons_of_mem _ h'')
        · exact Or.inr (List.mem_cons_of_mem _ h'')

theorem countP_updateFirst_of_pres {p q : α → Bool} {f : α → α} {l : List α}
    (hf : ∀ x, q x = true → (p (f x) = p x)) :
    (updateFirst q f l).countP p = l.countP p := by
  induction l with
  | nil => rfl
  | cons y ys ih =>
    by_cases hy : q y
    · simp only [updateFirst, hy, if_pos, List.countP_cons, hf y hy]
    · simp only [updateFirst, hy, if_neg, Bool.false_eq_true, not_false_eq_true,
        List.countP_cons, ih]

/-! ## `applyStat` field lemmas -/

theorem applyStat_user_id (sc : Int) (ty : String) (now : Nat) (s : EmojiStats) :
    (applyStat sc ty now s).user_id = s.user_id := by
  unfold applyStat
  by_cases h1 : ty == "given"
  · simp [h1]
  · by_cases h2 : ty == "received" <;> simp [h1, h2]

theorem applyStat_emoji_name (sc : Int) (ty : String) (now : Nat) (s : EmojiStats) :
    (applyStat sc ty now s).emoji_name = s.emoji_name := by
  unfold applyStat
  by_cases h1 : ty == "given"
  · simp [h1]
  · by_cases h2 : ty == "received" <;> simp [h1, h2]

theorem statMatches_applyStat (uid : Nat) (nm : String) (sc : Int) (ty : String)
    (now : Nat) (s : EmojiStats) :
    statMatches uid nm (applyStat sc ty now s) = statMatches uid nm s := by
  simp [statMatches, applyStat_user_id, applyStat_emoji_name]

/-! ## Closed runs of `_update_emoji_stats` -/

theorem record_occurrences_stats (pre : List EmojiStats) (r : EmojiStats) (db : Db)
    (uid : Nat) (nm ty : String) (occs : List (Int × Nat))
    (hpre : pre.find? (statMatches uid nm) = none)
    (hr : statMatches uid nm r = true)
    (hdb : db.stats = pre ++ [r]) :
    (record_occurrences db uid nm ty occs).stats
      = pre ++ [occs.foldl (fun s q => applyStat q.1 ty q.2 s) r] := by
  induction occs generalizing db r with
  | nil => simpa [record_occurrences] using hdb
  | cons q rest ih =>
    obtain ⟨sc, t⟩ := q
    have hfind : db.stats.find? (statMatches uid nm) = some r := by
      rw [hdb, find?_append_of_none hpre, List.find?_cons_of_pos _ hr]
    have hupd : (update_emoji_stats db t uid nm sc ty).stats
        = pre ++ [applyStat sc ty t r] := by
      simp only [update_emoji_stats, hfind]
      rw [hdb, updateFirst_append_of_none hpre]
      simp [updateFirst, hr]
    simpa only [record_occurrences, List.foldl_cons] using
      ih (applyStat sc ty t r) _ (by rw [statMatches_applyStat]; exact hr) hupd

theorem record_occurrences_fresh (db : Db) (uid : Nat) (nm ty : String)
    (sc : Int) (t : Nat) (rest : List (Int × Nat))
    (h : db.stats.find? (statMatches uid nm) = none) :
    (record_occurrences db uid nm ty ((sc, t) :: rest)).stats
      = db.stats ++ [rest.foldl (fun s q => applyStat q.1 ty q.2 s)
          (applyStat sc ty t (newStatsRow uid nm t))] := by
  have h1 : (update_emoji_stats db t uid nm sc ty).stats
      = db.stats ++ [applyStat sc ty t (newStatsRow uid nm t)] := by
    simp only [update_emoji_stats, h]
  simp only [record_occurrences]
  exact record_occurrences_stats db.stats _ _ uid nm ty rest h
    (by rw [statMatches_applyStat]; simp [statMatches, newStatsRow]) h1

theorem foldl_applyStat_given (r : EmojiStats) (occs : List (Int × Nat)) :
    (occs.foldl (fun s q => applyStat q.1 "given" q.2 s) r).given_count
        = r.given_count + occs.length ∧
      (occs.foldl (fun s q => applyStat q.1 "given" q.2 s) r).given_score
        = r.given_score + (occs.map Prod.fst).sum ∧
      (occs.foldl (fun s q => applyStat q.1 "given" q.2 s) r).received_count
        = r.received_count ∧
      (occs.foldl (fun s q => applyStat q.1 "given" q.2 s) r).received_score
        = r.received_score ∧
      (occs.foldl (fun s q => applyStat q.1 "given" q.2 s) r).first_used
        = r.first_used ∧
      (occs.foldl (fun s q => applyStat q.1 "given" q.2 s) r).last_used
        = occs.foldl (fun _ q => q.2) r.last_used := by
  induction occs generalizing r with
  | nil => simp
  | cons q rest ih =>
    obtain ⟨sc, t⟩ := q
    obtain ⟨h1, h2, h3, h4, h5, h6⟩ := ih (applyStat sc "given" t r)
    have hgc : (applyStat sc "given" t r).given_count = r.given_count + 1 := by
      simp [applyStat]
    have hgs : (applyStat sc "given" t r).given_score = r.given_score + sc := by
      simp [applyStat]
    have hrc : (applyStat sc "given" t r).received_count = r.received_count := by
      simp [applyStat]
    have hrs : (applyStat sc "given" t r).received_score = r.received_score := by
      simp [applyStat]
    have hfu : (applyStat sc "given" t r).first_used = r.first_used := by
      simp [applyStat]
    have hlu : (applyStat sc "given" t r).last_used = t := by
      simp [applyStat]
    simp only [List.foldl_cons, List.length_cons, List.map_cons, List.sum_cons]
    refine ⟨?_, ?_, ?_, ?_, ?_, ?_⟩
    · rw [h1, hgc]; push_cast; ring
    · rw [h2, hgs]; ring
    · rw [h3, hrc]
    · rw [h4, hrs]
    · rw [h5, hfu]
    · rw [h6, hlu]

theorem foldl_applyStat_received (r : EmojiStats) (occs : List (Int × Nat)) :
    (occs.foldl (fun s q => applyStat q.1 "received" q.2 s) r).received_count
        = r.received_count + occs.length ∧
      (occs.foldl (fun s q => applyStat q.1 "received" q.2 s) r).received_score
        = r.received_score + (occs.map Prod.fst).sum ∧
      (occs.foldl (fun s q => applyStat q.1 "received" q.2 s) r).given_count
        = r.given_count ∧
      (occs.foldl (fun s q => applyStat q.1 "received" q.2 s) r).given_score
        = r.given_score ∧
      (occs.foldl (fun s q => applyStat q.1 "received" q.2 s) r).first_used
        = r.first_used ∧
      (occs.foldl (fun s q => applyStat q.1 "received" q.2 s) r).last_used
        = occs.foldl (fun _ q => q.2) r.last_used := by
  induction occs generalizing r with
  | nil => simp
  | cons q rest ih =>
    obtain ⟨sc, t⟩ := q
    obtain ⟨h1, h2, h3, h4, h5, h6⟩ := ih (applyStat sc "received" t r)
    have hrc : (applyStat sc "received" t r).received_count = r.received_count + 1 := by
      simp [applyStat]
    have hrs : (applyStat sc "received" t r).received_score = r.received_score + sc := by
      simp [applyStat]
    have hgc : (applyStat sc "received" t r).given_count = r.given_count := by
      simp [applyStat]
    have hgs : (applyStat sc "received" t r).given_score = r.given_score := by
      simp [applyStat]
    have hfu : (applyStat sc "received" t r).first_used = r.first_used := by
      simp [applyStat]
    have hlu : (applyStat sc "received" t r).last_used = t := by
      simp [applyStat]
    simp only [List.foldl_cons, List.length_cons, List.map_cons, List.sum_cons]
    refine ⟨?_, ?_, ?_, ?_, ?_, ?_⟩
    · rw [h1, hrc]; push_cast; ring
    · rw [h2, hrs]; ring
    · rw [h3, hgc]
    · rw [h4, hgs]
    · rw [h5, hfu]
    · rw [h6, hlu]

theorem applyStat_first_used (sc : Int) (ty : String) (now : Nat) (s : EmojiStats) :
    (applyStat sc ty now s).first_used = s.first_used := by
  unfold applyStat
  by_cases h1 : ty == "given"
  · simp [h1]
  · by_cases h2 : ty == "received" <;> simp [h1, h2]

theorem applyStat_last_used (sc : Int) (ty : String) (now : Nat) (s : EmojiStats) :
    (applyStat sc ty now s).last_used = now :=
  rfl

theorem foldl_applyStat_keys (ty : String) (r : EmojiStats) (occs : List (Int × Nat)) :
    (occs.foldl (fun s q => applyStat q.1 ty q.2 s) r).user_id = r.user_id ∧
      (occs.foldl (fun s q => applyStat q.1 ty q.2 s) r).emoji_name = r.emoji_name := by
  induction occs generalizing r with
  | nil => exact ⟨rfl, rfl⟩
  | cons q rest ih =>
    obtain ⟨sc, t⟩ := q
    obtain ⟨h1, h2⟩ := ih (applyStat sc ty t r)
    simp only [List.foldl_cons]
    exact ⟨by rw [h1, applyStat_user_id], by rw [h2, applyStat_emoji_name]⟩

/-! ## Claim theorems -/

/-- Claim C3: whenever the policy resolves the emoji name to score 0,
`track_emoji_usage` returns the skipped outcome (`None`) and the database
is completely unchanged — no usage row, no aggregate mutation, and no user
or channel resolution. -/
theorem score_zero_skips (cfg : EmojiConfig) (db : Db) (now : Nat)
    (user_slack_id emoji_name usage_type : String)
    (channel_slack_id message_ts message_text target_user_slack_id : Option String)
    (h : get_emoji_score cfg emoji_name = .ok 0) :
    track_emoji_usage cfg db now user_slack_id emoji_name usage_type
      channel_slack_id message_ts message_text target_user_slack_id = .ok (none, db) := by
  unfold track_emoji_usage
  rw [h]
  rfl

/-- Witness for C3: in the default configuration an unconfigured emoji has
score 0 and recording it is a no-op on the empty database. -/
theorem score_zero_skips_witness :
    get_emoji_score defaultCfg "unknown" = .ok 0 ∧
      track_emoji_usage defaultCfg Db.empty 0 "U1" "unknown" "message"
        none none none none = .ok (none, Db.empty) :=
  ⟨by rfl, score_zero_skips defaultCfg Db.empty 0 "U1" "unknown" "message"
    none none none none (by rfl)⟩

/-- Claim C4: starting with no (user, emoji) aggregate row, a sequence of
recorded occurrences with scores s1..sN leaves exactly one new row whose
count equals N and whose score-sum equals the total of the scores, on the
recorded side, with the other side untouched; `first_used` keeps the
creation time and `last_used` is refreshed on every update (ending at the
final occurrence's time). -/
theorem additive_aggregation (db : Db) (uid : Nat) (nm : String)
    (occs : List (Int × Nat)) (s1 : Int) (t1 : Nat) (rest : List (Int × Nat))
    (h : db.stats.find? (statMatches uid nm) = none)
    (hocc : occs = (s1, t1) :: rest) :
    (∃ r, (record_occurrences db uid nm "given" occs).stats = db.stats ++ [r] ∧
       r.user_id = uid ∧ r.emoji_name = nm ∧
       r.given_count = (occs.length : Int) ∧ r.given_score = (occs.map Prod.fst).sum ∧
       r.received_count = 0 ∧ r.received_score = 0 ∧
       r.first_used = t1 ∧ r.last_used = rest.foldl (fun _ q => q.2) t1) ∧
    (∃ r, (record_occurrences db uid nm "received" occs).stats = db.stats ++ [r] ∧
       r.user_id = uid ∧ r.emoji_name = nm ∧
       r.received_count = (occs.length : Int) ∧ r.received_score = (occs.map Prod.fst).sum ∧
       r.given_count = 0 ∧ r.given_score = 0 ∧
       r.first_used = t1 ∧ r.last_used = rest.foldl (fun _ q => q.2) t1) := by
  subst hocc
  constructor
  · obtain ⟨g1, g2, g3, g4, g5, g6⟩ :=
      foldl_applyStat_given (applyStat s1 "given" t1 (newStatsRow uid nm t1)) rest
    obtain ⟨k1, k2⟩ :=
      foldl_applyStat_keys "given" (applyStat s1 "given" t1 (newStatsRow uid nm t1)) rest
    refine ⟨_, record_occurrences_fresh db uid nm "given" s1 t1 rest h,
      ?_, ?_, ?_, ?_, ?_, ?_, ?_, ?_⟩
    · rw [k1, applyStat_user_id]; rfl
    · rw [k2, applyStat_emoji_name]; rfl
    · rw [g1]
      have : (applyStat s1 "given" t1 (newStatsRow uid nm t1)).given_count = 1 := by
        simp [applyStat, newStatsRow]
      rw [this]
      simp only [List.length_cons]
      push_cast
      ring
    · rw [g2]
      have : (applyStat s1 "given" t1 (newStatsRow uid nm t1)).given_score = s1 := by
        simp [applyStat, newStatsRow]
      rw [this]
      simp only [List.map_cons, List.sum_cons]
    · rw [g3]
      simp [applyStat, newStatsRow]
    · rw [g4]
      simp [applyStat, newStatsRow]
    · rw [g5, applyStat_first_used]
      rfl
    · rw [g6, applyStat_last_used]
  · obtain ⟨g1, g2, g3, g4, g5, g6⟩ :=
      foldl_applyStat_received (applyStat s1 "received" t1 (newStatsRow uid nm t1)) rest
    obtain ⟨k1, k2⟩ :=
      foldl_applyStat_keys "received" (applyStat s1 "received" t1 (newStatsRow uid nm t1)) rest
    refine ⟨_, record_occurrences_fresh db uid nm "received" s1 t1 rest h,
      ?_, ?_, ?_, ?_, ?_, ?_, ?_, ?_⟩
    · rw [k1, applyStat_user_id]; rfl
    · rw [k2, applyStat_emoji_name]; rfl
    · rw [g1]
      have : (applyStat s1 "received" t1 (newStatsRow uid nm t1)).received_count = 1 := by
        simp [applyStat, newStatsRow]
      rw [this]
      simp only [List.length_cons]
      push_cast
      ring
    · rw [g2]
      have : (applyStat s1 "received" t1 (newStatsRow uid nm t1)).received_score = s1 := by
        simp [applyStat, newStatsRow]
      rw [this]
      simp only [List.map_cons, List.sum_cons]
    · rw [g3]
      simp [applyStat, newStatsRow]
    · rw [g4]
      simp [applyStat, newStatsRow]
    · rw [g5, applyStat_first_used]
      rfl
    · rw [g6, applyStat_last_used]

/-- Witness for C4: two given-side occurrences of `fire` with scores 2 and 3
at times 10 and 20 on the empty database yield a single aggregate row with
`given_count = 2`, `given_score = 5`, `first_used = 10`, `last_used = 20`. -/
theorem additive_aggregation_witness :
    Db.empty.stats.find? (statMatches 0 "fire") = none ∧
      (∃ r, (record_occurrences Db.empty 0 "fire" "given" [(2, 10), (3, 20)]).stats
          = Db.empty.stats ++ [r] ∧
        r.user_id = 0 ∧ r.emoji_name = "fire" ∧
        r.given_count = ([((2 : Int), (10 : Nat)), (3, 20)].length : Int) ∧
        r.given_score = ([((2 : Int), (10 : Nat)), (3, 20)].map Prod.fst).sum ∧
        r.received_count = 0 ∧ r.received_score = 0 ∧
        r.first_used = 10 ∧ r.last_used = [((3 : Int), (20 : Nat))].foldl (fun _ q => q.2) 10) :=
  ⟨rfl, (additive_aggregation Db.empty 0 "fire" [(2, 10), (3, 20)] 2 10 [(3, 20)]
    rfl rfl).1⟩

/-- Claim C9: `extract_emojis_from_text` returns the inner names of all
`:name:` tokens in order with duplicates preserved, and
`extract_user_mentions` returns mentioned user IDs de-duplicated in
first-seen order, on the specification's round-trip examples. -/
theorem extraction_round_trip :
    extract_emojis_from_text "great :fire: job :100:" = ["fire", "100"] ∧
      extract_emojis_from_text "x :fire: y :fire:" = ["fire", "fire"] ∧
      extract_user_mentions "hi <@U123> and <@U456|bob>" = ["U123", "U456"] ∧
      extract_user_mentions "<@U123> go <@U123>" = ["U123"] := by
  refine ⟨?_, ?_, ?_, ?_⟩ <;> rfl

/-- Counterexample to claim C5: the identity upsert does NOT leave every
omitted field unchanged.  A stored user with `is_bot = true` upserted with
no supplied fields comes back with `is_bot = false`, and a stored private,
archived channel upserted with no supplied fields comes back un-private and
un-archived — the code assigns these flags unconditionally
(`service.py` lines 69, 101-102). -/
theorem upsert_bot_flag_cex :
    sampleUser.is_bot = true ∧
      ((create_or_update_user { Db.empty with users := [sampleUser] } 9 "U1"
          none none none false).1).is_bot = false ∧
      sampleChannel.is_private = true ∧ sampleChannel.is_archived = true ∧
      ((create_or_update_channel { Db.empty with channels := [sampleChannel] } 9 "C1"
          none false false).1).is_private = false ∧
      ((create_or_update_channel { Db.empty with channels := [sampleChannel] } 9 "C1"
          none false false).1).is_archived = false :=
  ⟨rfl, rfl, rfl, rfl, rfl, rfl⟩

/-- Claim C5 (amended): for an existing identity, omitted optional string
fields (user email / display name / real name, channel name) keep their
stored values and supplied ones overwrite, with the updated timestamp
refreshed — but the user's bot flag and the channel's private/archived
flags are always overwritten with the passed (or default) values; and
calling the upsert twice with the same external id yields exactly one
stored record. -/
theorem upsert_semantics :
    (∀ (db : Db) (now : Nat) (sid : String) (u : User) (b : Bool),
      db.users.find? (fun v => v.slack_id == sid) = some u →
      create_or_update_user db now sid none none none b
        = ({ u with is_bot := b, updated_at := now },
           { db with users := (updateFirst (fun v => v.slack_id == sid)
               (fun _ => { u with is_bot := b, updated_at := now }) db.users) })) ∧
    (∀ (db : Db) (now : Nat) (sid : String) (u : User) (e d r : String) (b : Bool),
      db.users.find? (fun v => v.slack_id == sid) = some u →
      create_or_update_user db now sid (some e) (some d) (some r) b
        = ({ u with email := some e, display_name := some d, real_name := some r, is_bot := b, updated_at := now },
           { db with users := (updateFirst (fun v => v.slack_id == sid) (fun _ => { u with email := some e, display_name := some d, real_name := some r, is_bot := b, updated_at := now }) db.users) })) ∧
    (∀ (db : Db) (now : Nat) (sid : String) (c : Channel) (p a : Bool),
      db.channels.find? (fun v => v.slack_id == sid) = some c →
      create_or_update_channel db now sid none p a
        = ({ c with is_private := p, is_archived := a, updated_at := now },
           { db with channels := (updateFirst (fun v => v.slack_id == sid)
               (fun _ => { c with is_private := p, is_archived := a, updated_at := now })
               db.channels) })) ∧
    (∀ (db : Db) (now1 now2 : Nat) (sid : String)
        (e1 d1 r1 : Option String) (b1 : Bool) (e2 d2 r2 : Option String) (b2 : Bool),
      db.users.countP (fun v => v.slack_id == sid) = 0 →
      ((create_or_update_user
          (create_or_update_user db now1 sid e1 d1 r1 b1).2 now2 sid e2 d2 r2 b2).2).users.countP
        (fun v => v.slack_id == sid) = 1) := by
  refine ⟨?_, ?_, ?_, ?_⟩
  · intro db now sid u b hu
    simp only [create_or_update_user, hu]
    rfl
  · intro db now sid u e d r b hu
    simp only [create_or_update_user, hu]
    rfl
  · intro db now sid c p a hc
    simp only [create_or_update_channel, hc]
    rfl
  · intro db now1 now2 sid e1 d1 r1 b1 e2 d2 r2 b2 h0
    have hnone : db.users.find? (fun v => v.slack_id == sid) = none :=
      List.find?_eq_none.mpr (fun x hx => by
        simpa using List.countP_eq_zero.mp h0 x hx)
    set newU : User :=
      { id := db.next_user_id, slack_id := sid, email := e1,
        display_name := d1, real_name := r1, is_bot := b1,
        created_at := now1, updated_at := now1 } with hnewU
    have hp : (newU.slack_id == sid) = true := by simp [hnewU]
    have h1 : (create_or_update_user db now1 sid e1 d1 r1 b1).2
        = { db with users := db.users ++ [newU], next_user_id := db.next_user_id + 1 } := by
      simp only [create_or_update_user, hnone]
    have hfind2 : ({ db with users := db.users ++ [newU], next_user_id := db.next_user_id + 1 } : Db).users.find? (fun v => v.slack_id == sid) = some newU := by
      show (db.users ++ [newU]).find? (fun v => v.slack_id == sid) = some newU
      rw [find?_append_of_none hnone]
      exact List.find?_cons_of_pos _ hp
    rw [h1]
    simp only [create_or_update_user, hfind2]
    rw [countP_updateFirst_of_pres (fun x hx => by rw [hx]; exact hp)]
    rw [List.countP_append, h0]
    simp [hp]

/-- Witness for C5: the amended semantics at concrete inputs — the sample
user keeps email and display name but has the bot flag overwritten, and two
upserts of a fresh id leave exactly one row. -/
theorem upsert_semantics_witness :
    ({ Db.empty with users := [sampleUser] } : Db).users.find?
        (fun v => v.slack_id == "U1") = some sampleUser ∧
      create_or_update_user { Db.empty with users := [sampleUser] } 9 "U1"
          none none none false
        = ({ sampleUser with is_bot := false, updated_at := 9 },
           { Db.empty with users := [{ sampleUser with is_bot := false, updated_at := 9 }] }) ∧
      Db.empty.users.countP (fun v => v.slack_id == "U7") = 0 ∧
      ((create_or_update_user
          (create_or_update_user Db.empty 1 "U7" (some "x@y") none none false).2
          2 "U7" none (some "Dee") none true).2).users.countP
        (fun v => v.slack_id == "U7") = 1 := by
  refine ⟨rfl, ?_, rfl, ?_⟩
  · have h := (upsert_semantics.1 { Db.empty with users := [sampleUser] } 9 "U1"
      sampleUser false rfl)
    simpa [updateFirst, sampleUser] using h
  · exact upsert_semantics.2.2.2 Db.empty 1 2 "U7" (some "x@y") none none false
      none (some "Dee") none true rfl

/-- Counterexample to claim C7: `Config.get_emoji_score` does not default to
score 1 when the emoji's entry exists but specifies no score — the
`emoji_config["score"]` access raises `KeyError` instead. -/
theorem missing_score_default_cex :
    get_emoji_score starCfg "star" = .error "KeyError: score" ∧
      ¬ get_emoji_score starCfg "star" = .ok 1 := by
  refine ⟨rfl, fun h => ?_⟩
  rw [show get_emoji_score starCfg "star" = Except.error "KeyError: score" from rfl] at h
  exact Except.noConfusion h

/-- Claim C7 (amended): `get_emoji_score` first normalizes the name
(strips colons, lowercases in the default case-insensitive mode, so
`ROCKET`, `rocket` and `:rocket:` agree); when the normalized name has a
table entry it returns that entry's score if one is specified and raises a
`KeyError` (not a default of 1) if the entry specifies none; when there is
no entry it returns `default_score` if `track_all_emojis` else 0. -/
theorem policy_score_resolution (cfg : EmojiConfig) (name : String) :
    (cfg.settings.case_sensitive = false →
      get_emoji_score cfg "ROCKET" = get_emoji_score cfg "rocket" ∧
      get_emoji_score cfg ":rocket:" = get_emoji_score cfg "rocket") ∧
    (∀ e, lookupEmoji (normalizeName cfg name) cfg.emojis = some e →
      (∀ sc, e.score = some sc → get_emoji_score cfg name = .ok sc) ∧
      (e.score = none → get_emoji_score cfg name = .error "KeyError: score")) ∧
    (lookupEmoji (normalizeName cfg name) cfg.emojis = none →
      get_emoji_score cfg name
        = .ok (if cfg.settings.track_all_emojis then cfg.settings.default_score else 0)) := by
  refine ⟨?_, ?_, ?_⟩
  · intro hci
    have h1 : normalizeName cfg "ROCKET" = normalizeName cfg "rocket" := by
      unfold normalizeName
      rw [hci]
      decide
    have h2 : normalizeName cfg ":rocket:" = normalizeName cfg "rocket" := by
      unfold normalizeName
      rw [hci]
      decide
    constructor
    · unfold get_emoji_score
      rw [h1]
    · unfold get_emoji_score
      rw [h2]
  · intro e he
    constructor
    · intro sc hsc
      simp [get_emoji_score, he, hsc]
    · intro hsc
      simp [get_emoji_score, he, hsc]
  · intro he
    by_cases h : cfg.settings.track_all_emojis <;> simp [get_emoji_score, he, h]

/-- Witness for C7: the amended resolution at concrete configurations —
`ROCKET`, `rocket`, `:rocket:` agree and score 2 in `rocketCfg`; the
score-less `star` entry raises; an absent name scores 0 with
`track_all_emojis` off. -/
theorem policy_score_resolution_witness :
    rocketCfg.settings.case_sensitive = false ∧
      lookupEmoji (normalizeName rocketCfg "ROCKET") rocketCfg.emojis
        = some { score := some 2 } ∧
      get_emoji_score rocketCfg "ROCKET" = get_emoji_score rocketCfg "rocket" ∧
      get_emoji_score rocketCfg ":rocket:" = get_emoji_score rocketCfg "rocket" ∧
      get_emoji_score rocketCfg "ROCKET" = .ok 2 ∧
      lookupEmoji (normalizeName starCfg "star") starCfg.emojis = some { score := none } ∧
      get_emoji_score starCfg "star" = .error "KeyError: score" ∧
      lookupEmoji (normalizeName defaultCfg "missing") defaultCfg.emojis = none ∧
      get_emoji_score defaultCfg "missing" = .ok 0 :=
  ⟨rfl, rfl,
    ((policy_score_resolution rocketCfg "ROCKET").1 rfl).1,
    ((policy_score_resolution rocketCfg "ROCKET").1 rfl).2,
    ((policy_score_resolution rocketCfg "ROCKET").2.1 { score := some 2 } rfl).1 2 rfl,
    rfl,
    ((policy_score_resolution starCfg "star").2.1 { score := none } rfl).2 rfl,
    rfl,
    (policy_score_resolution defaultCfg "missing").2.2 rfl⟩

theorem rankFrom_mem {b : LeaderboardEntry} :
    ∀ {i : Nat} {gs : List (User × List EmojiStats)},
      b ∈ rankFrom i gs → ∃ g ∈ gs, ∃ j, b = mkEntry j g := by
  intro i gs
  induction gs generalizing i with
  | nil => intro h; simp [rankFrom] at h
  | cons g gs ih =>
    intro h
    rcases List.mem_cons.mp h with rfl | h'
    · exact ⟨g, List.mem_cons_self .., i + 1, rfl⟩
    · obtain ⟨g', hg', j, hb⟩ := ih h'
      exact ⟨g', List.mem_cons_of_mem _ hg', j, hb⟩

theorem rankFrom_received_sorted :
    ∀ (i : Nat) (gs : List (User × List EmojiStats)),
      List.Pairwise (fun p q => sumBy (fun s => s.received_score) q.2
        ≤ sumBy (fun s => s.received_score) p.2) gs →
      List.Pairwise (fun a b => b.received_score ≤ a.received_score) (rankFrom i gs) := by
  intro i gs
  induction gs generalizing i with
  | nil => intro _; simp [rankFrom]
  | cons g gs ih =>
    intro h
    rcases List.pairwise_cons.mp h with ⟨hg, hgs⟩
    refine List.pairwise_cons.mpr ⟨?_, ih (i + 1) hgs⟩
    intro b hb
    obtain ⟨g', hg', j, rfl⟩ := rankFrom_mem hb
    exact hg g' hg'

/-- Claim C6: for a user with exactly five stored usage events, pages
(limit 2, offset 0) and (limit 2, offset 2) return the first two and the
next two events of the descending creation-time order with no duplicates or
omissions; `hasMore` is true on the first page and false on the final page
— the page containing the last event, i.e. offset 4. -/
theorem history_pagination (db : Db) (sid : String) (u : User)
    (hu : db.users.find? (fun v => v.slack_id == sid) = some u)
    (hn : (db.usages.filter (fun e => e.user_id == u.id)).length = 5) :
    ∃ p0 p2 p4,
      get_user_history db sid 2 0 = some p0 ∧
      get_user_history db sid 2 2 = some p2 ∧
      get_user_history db sid 2 4 = some p4 ∧
      p0.history = ((userEvents db u.id).take 2).map historyItem ∧
      p2.history = (((userEvents db u.id).drop 2).take 2).map historyItem ∧
      p0.history ++ p2.history = ((userEvents db u.id).take 4).map historyItem ∧
      p4.history = ((userEvents db u.id).drop 4).map historyItem ∧
      List.Pairwise (fun a b => b.created_at ≤ a.created_at) (userEvents db u.id) ∧
      p0.has_more = true ∧ p2.has_more = true ∧ p4.has_more = false := by
  have hL : (userEvents db u.id).length = 5 := by
    rw [userEvents, length_sortDescBy, hn]
  refine ⟨_, _, _, by simp only [get_user_history, hu]; rfl,
    by simp only [get_user_history, hu]; rfl,
    by simp only [get_user_history, hu]; rfl, ?_, ?_, ?_, ?_, ?_, ?_, ?_, ?_⟩
  · show (((userEvents db u.id).drop 0).take 2).map historyItem = _
    rw [List.drop_zero]
  · rfl
  · show (((userEvents db u.id).drop 0).take 2).map historyItem
        ++ (((userEvents db u.id).drop 2).take 2).map historyItem = _
    rw [List.drop_zero, ← List.map_append]
    rw [show (4 : Nat) = 2 + 2 from rfl, List.take_add]
  · show (((userEvents db u.id).drop 4).take 2).map historyItem = _
    have hlen : ((userEvents db u.id).drop 4).length ≤ 2 := by
      rw [List.length_drop, hL]
      decide
    rw [List.take_of_length_le hlen]
  · exact (@pairwise_sortDescBy EmojiUsage (fun e => (e.created_at : Int))
      (db.usages.filter (fun e => e.user_id == u.id))).imp
      (fun h => by exact_mod_cast h)
  · show decide (0 + 2 < (db.usages.filter (fun e => e.user_id == u.id)).length) = true
    rw [hn]
    decide
  · show decide (2 + 2 < (db.usages.filter (fun e => e.user_id == u.id)).length) = true
    rw [hn]
    decide
  · show decide (4 + 2 < (db.usages.filter (fun e => e.user_id == u.id)).length) = false
    rw [hn]
    decide

/-- Witness for C6: the sample database with five events at times
1, 3, 2, 5, 4 paginates as claimed. -/
theorem history_pagination_witness :
    historyDb.users.find? (fun v => v.slack_id == "U1")
        = some { sampleUser with is_bot := false } ∧
      (historyDb.usages.filter
        (fun e => e.user_id == ({ sampleUser with is_bot := false } : User).id)).length = 5 ∧
      (∃ p0 p2 p4,
        get_user_history historyDb "U1" 2 0 = some p0 ∧
        get_user_history historyDb "U1" 2 2 = some p2 ∧
        get_user_history historyDb "U1" 2 4 = some p4 ∧
        p0.history = ((userEvents historyDb 0).take 2).map historyItem ∧
        p2.history = (((userEvents historyDb 0).drop 2).take 2).map historyItem ∧
        p0.history ++ p2.history = ((userEvents historyDb 0).take 4).map historyItem ∧
        p4.history = ((userEvents historyDb 0).drop 4).map historyItem ∧
        List.Pairwise (fun a b => b.created_at ≤ a.created_at) (userEvents historyDb 0) ∧
        p0.has_more = true ∧ p2.has_more = true ∧ p4.has_more = false) :=
  ⟨rfl, rfl, history_pagination historyDb "U1" { sampleUser with is_bot := false } rfl rfl⟩

/-- Claim C8: an invalid sort key makes the leaderboard behave exactly as if
the default `received_score` had been supplied, and the returned entries
are non-increasing in that summed counter. -/
theorem leaderboard_fallback (db : Db) (key : String) (limit : Nat)
    (h : ¬ key ∈ valid_sort_options) :
    get_leaderboard db key limit = get_leaderboard db "received_score" limit ∧
      List.Pairwise (fun a b => b.received_score ≤ a.received_score)
        (get_leaderboard db key limit) := by
  have hEq : get_leaderboard db key limit = get_leaderboard db "received_score" limit := by
    simp [get_leaderboard, h, ite_self]
  refine ⟨hEq, ?_⟩
  rw [hEq]
  have hdef : get_leaderboard db "received_score" limit
      = rankFrom 0 ((sortDescBy
          (fun p : User × List EmojiStats => sumBy (fun s => s.received_score) p.2)
          (userGroups db)).take limit) := rfl
  rw [hdef]
  refine rankFrom_received_sorted 0 _ ?_
  exact (@pairwise_sortDescBy (User × List EmojiStats)
    (fun p => sumBy (fun s => s.received_score) p.2) (userGroups db)).sublist
    (List.take_sublist _ _)

/-- Witness for C8: the bogus key `by_vibes` on the sample leaderboard
database falls back to `received_score` and the output is sorted. -/
theorem leaderboard_fallback_witness :
    ¬ "by_vibes" ∈ valid_sort_options ∧
      get_leaderboard leaderDb "by_vibes" 50 = get_leaderboard leaderDb "received_score" 50 ∧
      List.Pairwise (fun (a b : LeaderboardEntry) => b.received_score ≤ a.received_score)
        (get_leaderboard leaderDb "by_vibes" 50) :=
  ⟨by decide, (leaderboard_fallback leaderDb "by_vibes" 50 (by decide)).1,
    (leaderboard_fallback leaderDb "by_vibes" 50 (by decide)).2⟩

/-- Claim C10: the leaderboard query inner-joins users with aggregate rows,
so a user with no aggregate row never appears in the returned ranking, for
any sort key and limit. -/
theorem leaderboard_requires_stats (db : Db) (key : String) (limit : Nat) (u : User)
    (hu : u ∈ db.users)
    (hnostats : ∀ s ∈ db.stats, ¬ s.user_id = u.id)
    (huniq : ∀ v ∈ db.users, v.slack_id = u.slack_id → v = u) :
    ∀ e ∈ get_leaderboard db key limit, ¬ e.slack_id = u.slack_id := by
  intro e he heq
  simp only [get_leaderboard] at he
  obtain ⟨g, hg, j, rfl⟩ := rankFrom_mem he
  have hg1 : g ∈ sortDescBy _ (userGroups db) := List.take_subset _ _ hg
  have hg2 : g ∈ userGroups db := mem_sortDescBy.mp hg1
  simp only [userGroups, List.mem_filter, List.mem_map] at hg2
  obtain ⟨⟨v, hv, rfl⟩, hne⟩ := hg2
  have hvq : v = u := huniq v hv heq
  subst hvq
  rcases hfil : db.stats.filter (fun s => s.user_id == v.id) with _ | ⟨s, rest⟩
  · rw [hfil] at hne
    simp at hne
  · have hs : s ∈ db.stats.filter (fun s => s.user_id == v.id) :=
      hfil ▸ List.mem_cons_self ..
    have hsplit := List.mem_filter.mp hs
    exact hnostats s hsplit.1 (by simpa using hsplit.2)

/-- Witness for C10: in the sample leaderboard database, user `U2` has no
aggregate row and never appears in the ranking. -/
theorem leaderboard_requires_stats_witness :
    ({ id := 1, slack_id := "U2", email := none, display_name := none, real_name := none,
        is_bot := false, created_at := 0, updated_at := 0 } : User) ∈ leaderDb.users ∧
      (∀ e ∈ get_leaderboard leaderDb "given_count" 10, ¬ e.slack_id = "U2") :=
  ⟨by decide,
    leaderboard_requires_stats leaderDb "given_count" 10
      { id := 1, slack_id := "U2", email := none, display_name := none, real_name := none,
        is_bot := false, created_at := 0, updated_at := 0 }
      (by decide) (by decide) (by decide)⟩

/-- Counterexample to claim C1: a self-reaction (actor `U1` reacting with
target `U1`) passed to `EmojiService.track_emoji_usage` performs NO
given-side aggregate update at all: the call raises `TypeError` at the
`EmojiUsage` constructor (`service.py` line 155 passes `message_text`,
for which `models.py` declares no column) before `_update_emoji_stats`
can run, so no aggregate entry is created or incremented on either side. -/
theorem self_reaction_no_update_cex :
    track_emoji_usage defaultCfg Db.empty 0 "U1" "thumbsup" "reaction" none none none
        (some "U1")
      = .error "TypeError: message_text is an invalid keyword argument for EmojiUsage" :=
  rfl

/-- Claim C1 (amended): `EmojiService.track_emoji_usage` performs no
aggregate update at all for a self-reaction — every call that passes the
score check raises `TypeError` at the `EmojiUsage` constructor, because
line 155 passes a `message_text` keyword that `models.py` declares no
column for, so the given/received updates at lines 161-166 are
unreachable; only the legacy `EmojiTrackerService._update_user_stats`
implements the claimed behaviour, performing the given-side update alone
when the receiver equals the giver. -/
theorem self_reaction_sides (cfg : EmojiConfig) (db : Db) (now : Nat)
    (a name ty : String) (sc : Int) (ch ts mt : Option String)
    (hscore : get_emoji_score cfg name = .ok sc) (hnz : ¬ sc = 0) :
    track_emoji_usage cfg db now a name ty ch ts mt (some a)
        = .error "TypeError: message_text is an invalid keyword argument for EmojiUsage" ∧
    (∀ (table : List LegacyStats) (t : Nat) (score : Int) (em : String),
      legacy_update_user_stats table t a (some a) score em
        = legacy_update_single_user_stats table t a score 0 1 0 (some em) none) := by
  constructor
  · have hb : (sc == 0) = false := by simp [hnz]
    simp only [track_emoji_usage, hscore, bind, Except.bind, hb, Bool.false_eq_true,
      if_false, pure, Except.pure]
  · intro table t score em
    simp [legacy_update_user_stats, bne_self_eq_false]

/-- Witness for C1: a `thumbsup` self-reaction by `U1` on the sample
database raises and updates nothing, while the legacy per-user update with
receiver equal to giver reduces to the given-side-only update. -/
theorem self_reaction_sides_witness :
    get_emoji_score defaultCfg "thumbsup" = .ok 1 ∧
      ¬ (1 : Int) = 0 ∧
      track_emoji_usage defaultCfg historyDb 7 "U1" "thumbsup" "reaction" none none none
          (some "U1")
        = .error "TypeError: message_text is an invalid keyword argument for EmojiUsage" ∧
      legacy_update_user_stats [] 3 "U1" (some "U1") 5 "fire"
        = legacy_update_single_user_stats [] 3 "U1" 5 0 1 0 (some "fire") none :=
  ⟨rfl, by decide,
    (self_reaction_sides defaultCfg historyDb 7 "U1" "thumbsup" "reaction" 1
      none none none rfl (by decide)).1,
    (self_reaction_sides defaultCfg historyDb 7 "U1" "thumbsup" "reaction" 1
      none none none rfl (by decide)).2 [] 3 5 "fire"⟩

/-- Counterexample to claim C2: recording `:ROCKET:` (score 2, resolved via
the normalized `rocket` entry) stores NOTHING: the call raises `TypeError`
at the `EmojiUsage` constructor before any usage row is appended or any
aggregate entry is touched, so no stored row bears the normalized name
`rocket` — nor any other name. -/
theorem no_usage_row_stored_cex :
    get_emoji_score rocketCfg ":ROCKET:" = .ok 2 ∧
      track_emoji_usage rocketCfg Db.empty 0 "U1" ":ROCKET:" "message" none none none none
        = .error "TypeError: message_text is an invalid keyword argument for EmojiUsage" ∧
      normalizeName rocketCfg ":ROCKET:" = "rocket" :=
  ⟨rfl, rfl, rfl⟩

/-- Claim C2 (amended): no emoji name is ever stored by
`EmojiService.track_emoji_usage`: every occurrence that passes the score
check raises `TypeError` at the `EmojiUsage` constructor (the unreachable
construction at line 151 would have passed the input name verbatim, not
the normalized form); the §4.1 normalization is applied only inside the
policy score lookup, whose result is the score of the normalized name's
table entry. -/
theorem tracking_raises_before_store (cfg : EmojiConfig) (db : Db) (now : Nat)
    (a name ty : String) (sc : Int) (ch ts mt tgt : Option String)
    (hscore : get_emoji_score cfg name = .ok sc) (hnz : ¬ sc = 0) :
    track_emoji_usage cfg db now a name ty ch ts mt tgt
        = .error "TypeError: message_text is an invalid keyword argument for EmojiUsage" ∧
    (∀ e, lookupEmoji (normalizeName cfg name) cfg.emojis = some e → e.score = some sc) := by
  constructor
  · have hb : (sc == 0) = false := by simp [hnz]
    simp only [track_emoji_usage, hscore, bind, Except.bind, hb, Bool.false_eq_true,
      if_false, pure, Except.pure]
  · intro e he
    simp only [get_emoji_score, he] at hscore
    cases hsc : e.score with
    | some s =>
      rw [hsc] at hscore
      cases hscore
      rfl
    | none =>
      rw [hsc] at hscore
      exact Except.noConfusion hscore

/-- Witness for C2: recording `:ROCKET:` in a channel with a distinct
target raises at the constructor, and the normalized `rocket` entry carries
the resolved score 2. -/
theorem tracking_raises_before_store_witness :
    get_emoji_score rocketCfg ":ROCKET:" = .ok 2 ∧
      track_emoji_usage rocketCfg Db.empty 0 "U1" ":ROCKET:" "message"
          (some "C1") (some "111.22") none (some "U2")
        = .error "TypeError: message_text is an invalid keyword argument for EmojiUsage" ∧
      ({ score := some 2 } : EmojiEntry).score = some 2 :=
  ⟨rfl,
    (tracking_raises_before_store rocketCfg Db.empty 0 "U1" ":ROCKET:" "message" 2
      (some "C1") (some "111.22") none (some "U2") rfl (by decide)).1,
    (tracking_raises_before_store rocketCfg Db.empty 0 "U1" ":ROCKET:" "message" 2
      (some "C1") (some "111.22") none (some "U2") rfl (by decide)).2
      { score := some 2 } rfl⟩

end SlackEmojiTracker
